import Mathlib

/-!
Shallow embedding of the SportsChatBotAPI scrape/load pipeline
(`src/scraping/ncaa_scraper.py`, `src/scraping/data_loader.py`,
`src/scraping/views.py`, `src/scraping/models.py`,
`src/scraping/etl_pipeline.py`,
`src/scraping/management/commands/create_sample_data.py`).

Pandas data frames are modelled as a list of column names plus a list of
rows (each row a list of cells); raw scraped records are ordered key/value
lists of strings; the HTTP client, the HTML parser and the headless
browser are environment oracles (`ScrapeEnv`): the markup library hands the
scraper a list of table rows, each a list of cell texts, and the browser
either fails to launch, fails after launching, or delivers row elements.
Python exception flow is modelled with `Except`: a function that can let an
exception escape returns `Except PyExc`; a `try/except` block that catches
and returns normally produces `Except.ok`.
-/

namespace SportsChat

/-- A pandas cell: missing value (NaN/None), a string, or a number.
Numeric cells are modelled over `Int` (the pipeline only moves values, it
never computes with them). -/
inductive Cell where
  | null : Cell
  | str (v : String) : Cell
  | num (v : Int) : Cell
deriving DecidableEq, Repr

/-- A raw scraped record: an ordered mapping from column name to cell text,
as built by the extraction strategies (a Python dict of strings). -/
abbrev RawRow := List (String × String)

/-- Model of a pandas `DataFrame`: ordered column names and rows of cells. -/
structure DataFrame where
  cols : List String
  rows : List (List Cell)
deriving DecidableEq, Repr

/-- The empty `pd.DataFrame()`. -/
def DataFrame.empty : DataFrame := ⟨[], []⟩

/-- A data frame is rectangular when every row has one cell per column. -/
def DataFrame.Rect (df : DataFrame) : Prop :=
  ∀ r ∈ df.rows, r.length = df.cols.length

/-- Value of a row at a named column (first matching column, as pandas
column selection does); `Cell.null` when the column is absent. -/
def rowLookup : List String → List Cell → String → Cell
  | [], _, _ => Cell.null
  | _ :: _, [], _ => Cell.null
  | c0 :: cs, v :: vs, c => if c0 = c then v else rowLookup cs vs c

/-- The full column of values under a given column name. -/
def DataFrame.getCol (df : DataFrame) (c : String) : List Cell :=
  df.rows.map (fun r => rowLookup df.cols r c)

/-- Keys of a list of raw records, in order of first appearance: the column
order `pd.DataFrame(list_of_dicts)` produces. -/
def recordKeys (raw : List RawRow) : List String :=
  raw.foldl (fun acc r => r.foldl
    (fun a kv => if kv.1 ∈ a then a else a ++ [kv.1]) acc) []

/-- First value bound to a key in a raw record, as a cell
(`Cell.null` models the NaN pandas inserts for a key the record lacks). -/
def rawValue (r : RawRow) (k : String) : Cell :=
  match r.find? (fun kv => kv.1 == k) with
  | some kv => Cell.str kv.2
  | none => Cell.null

/-- `pd.DataFrame(raw)`: one column per distinct key, one row per record. -/
def DataFrame.fromRecords (raw : List RawRow) : DataFrame :=
  let ks := recordKeys raw
  ⟨ks, raw.map (fun r => ks.map (fun k => rawValue r k))⟩

/-- `df.drop_duplicates()`: keep the first occurrence of each row. -/
def dedupRows (rows : List (List Cell)) : List (List Cell) :=
  rows.foldl (fun acc r => if r ∈ acc then acc else acc ++ [r]) []

/-- Apply a cell transformation to every cell of the frame. -/
def DataFrame.mapCells (df : DataFrame) (f : Cell → Cell) : DataFrame :=
  ⟨df.cols, df.rows.map (fun r => r.map f)⟩

/-- `df.fillna('')`: replace every missing value by the empty string. -/
def fillnaCell (c : Cell) : Cell :=
  match c with
  | Cell.null => Cell.str ""
  | c => c

/-- Column-name canonicalisation from `clean_and_structure_data`:
`col.strip().lower().replace(' ', '_').replace('-', '_')`. -/
def normalizeColName (c : String) : String :=
  (c.trim.toLower.replace " " "_").replace "-" "_"

/-- Best-effort numeric coercion of one cell:
`pd.to_numeric(x, errors='ignore') if x != '' else x`. A non-empty string
that parses as a number becomes numeric, anything else is kept. -/
def coerceCell (c : Cell) : Cell :=
  match c with
  | Cell.str v =>
      if v = "" then Cell.str v
      else match v.toInt? with
        | some n => Cell.num n
        | none => Cell.str v
  | c => c

/-- `NCAAScraper.clean_and_structure_data` (ncaa_scraper.py lines 123-157):
empty input yields an empty frame; otherwise build a frame from the
records, drop duplicate rows, fill missing values with the empty string,
canonicalise column names, and coerce numeric-looking strings. -/
def clean_and_structure_data (raw : List RawRow) : DataFrame :=
  if raw.isEmpty then DataFrame.empty
  else
    let df := DataFrame.fromRecords raw
    let df : DataFrame := ⟨df.cols, dedupRows df.rows⟩
    let df := df.mapCells fillnaCell
    let df : DataFrame := ⟨df.cols.map normalizeColName, df.rows⟩
    df.mapCells coerceCell

/-! ## Extraction strategies (ncaa_scraper.py) -/

/-- A Python exception escaping a scraper call. -/
inductive PyExc where
  | network : PyExc
  | webdriver : PyExc
  | other (msg : String) : PyExc
deriving DecidableEq, Repr

/-- Outcome of `self.session.get(url)` followed by `raise_for_status()`:
either an exception (connection failure, or non-2xx status raised by
`raise_for_status`) or a parsed page. A page is the list of `tr` elements
the markup parser finds, each a list of cell (`td`/`th`) texts. -/
abbrev FetchOutcome := Except PyExc (List (List String))

/-- One row element delivered by the headless browser: its raw markup and
its visible text. -/
structure DynRow where
  html : String
  text : String
deriving DecidableEq, Repr

/-- Outcome of one headless-browser session for a URL:
`createFail` — `webdriver.Chrome(...)` itself raises (no browser process);
`navFail` — an exception after the browser was created (e.g. `driver.get`);
`loaded` — page loaded (`waitTimedOut` records whether the explicit wait
timed out and the fixed-sleep fallback ran) and row elements extracted. -/
inductive DynOutcome where
  | createFail : DynOutcome
  | navFail : DynOutcome
  | loaded (waitTimedOut : Bool) (rows : List DynRow) : DynOutcome
deriving DecidableEq, Repr

/-- Environment oracles: what the network and the browser do per URL. -/
structure ScrapeEnv where
  staticFetch : String → FetchOutcome
  dynamicRun : String → DynOutcome

/-- Row records built from a static page by `scrape_ncaa_basic_data`:
rows with no cells are skipped; cells become `column_i` keys with
whitespace-trimmed text. -/
def parseTableRows (page : List (List String)) : List RawRow :=
  (page.filter (fun cells => cells.length > 0)).map
    (fun cells => cells.enum.map
      (fun ic => ("column_" ++ toString ic.1, ic.2.trim)))

/-- `NCAAScraper.scrape_ncaa_basic_data` (ncaa_scraper.py lines 28-65):
the whole body is wrapped in `try/except Exception`, whose handler logs
and returns `[]` — so a fetch failure produces a normal empty result and
no exception ever escapes. -/
def scrape_ncaa_basic_data (env : ScrapeEnv) (url : String) :
    Except PyExc (List RawRow) :=
  match env.staticFetch url with
  | Except.error _e => Except.ok []
  | Except.ok page => Except.ok (parseTableRows page)

/-- Tracking of the headless-browser resource for one call:
whether a browser process was created, and whether `quit()` was called on
it before the call returned. -/
structure DriverState where
  created : Bool
  quitCalled : Bool
deriving DecidableEq, Repr

/-- The `row_data` dict built per row element by `scrape_ncaa_dynamic_data`. -/
def dynRowData (url : String) (r : DynRow) : RawRow :=
  [("html_content", r.html), ("text_content", r.text.trim), ("url", url)]

/-- `NCAAScraper.scrape_ncaa_dynamic_data` (ncaa_scraper.py lines 67-121):
`driver = None`; the `try` body creates the browser, navigates, waits
(a wait timeout is caught and replaced by a fixed sleep, not a failure)
and extracts the rows; `except Exception` returns `[]`; `finally` quits
the driver whenever one was created. Returns the call result together
with the driver resource state. -/
def scrape_ncaa_dynamic_data (env : ScrapeEnv) (url : String) :
    Except PyExc (List RawRow) × DriverState :=
  let body : Except PyExc (List RawRow) × Bool :=
    match env.dynamicRun url with
    | DynOutcome.createFail => (Except.error PyExc.webdriver, false)
    | DynOutcome.navFail => (Except.error PyExc.webdriver, true)
    | DynOutcome.loaded _timedOut rows =>
        (Except.ok (rows.map (dynRowData url)), true)
  let result : Except PyExc (List RawRow) :=
    match body.1 with
    | Except.error _e => Except.ok []
    | Except.ok rows => Except.ok rows
  (result, { created := body.2, quitCalled := body.2 })

/-- A strategy invocation recorded by the orchestrator embedding. -/
inductive Call where
  | static (url : String) : Call
  | dynamic (url : String) : Call
deriving DecidableEq, Repr

/-- Base URL built by `scrape_ncaa_basketball_stats`. -/
def bbUrl (category season : String) : String :=
  "https://www.ncaa.com/stats/basketball-men/d1/" ++ category ++ "/" ++ season

/-- Base URL built by `scrape_ncaa_football_stats`. -/
def fbUrl (category season : String) : String :=
  "https://www.ncaa.com/stats/football/fbs/" ++ category ++ "/" ++ season

/-- `NCAAScraper.scrape_ncaa_basketball_stats` (ncaa_scraper.py lines
159-182): try the static strategy; when it yields fewer than 5 rows,
fall back to the dynamic strategy; normalize whatever was kept. `bbUrl`
is the `base_url` the method builds. The second component records which
strategies were invoked. -/
def scrape_ncaa_basketball_stats (env : ScrapeEnv)
    (season category : String) :
    Except PyExc DataFrame × List Call :=
  match scrape_ncaa_basic_data env (bbUrl category season) with
  | Except.error e => (Except.error e, [Call.static (bbUrl category season)])
  | Except.ok data =>
    if data.length < 5 then
      match scrape_ncaa_dynamic_data env (bbUrl category season) with
      | (Except.error e, _) =>
          (Except.error e,
           [Call.static (bbUrl category season),
            Call.dynamic (bbUrl category season)])
      | (Except.ok data2, _) =>
          (Except.ok (clean_and_structure_data data2),
           [Call.static (bbUrl category season),
            Call.dynamic (bbUrl category season)])
    else (Except.ok (clean_and_structure_data data),
          [Call.static (bbUrl category season)])

/-- `NCAAScraper.scrape_ncaa_football_stats` (ncaa_scraper.py lines
184-207): same escalation over the football URL. -/
def scrape_ncaa_football_stats (env : ScrapeEnv)
    (season category : String) :
    Except PyExc DataFrame × List Call :=
  match scrape_ncaa_basic_data env (fbUrl category season) with
  | Except.error e => (Except.error e, [Call.static (fbUrl category season)])
  | Except.ok data =>
    if data.length < 5 then
      match scrape_ncaa_dynamic_data env (fbUrl category season) with
      | (Except.error e, _) =>
          (Except.error e,
           [Call.static (fbUrl category season),
            Call.dynamic (fbUrl category season)])
      | (Except.ok data2, _) =>
          (Except.ok (clean_and_structure_data data2),
           [Call.static (fbUrl category season),
            Call.dynamic (fbUrl category season)])
    else (Except.ok (clean_and_structure_data data),
          [Call.static (fbUrl category season)])

/-- The fixed basketball category list of `scrape_multiple_categories`. -/
def basketballCategories : List String :=
  ["scoring", "rebounding", "assists", "steals", "blocks"]

/-- The fixed football category list of `scrape_multiple_categories`. -/
def footballCategories : List String :=
  ["passing", "rushing", "receiving", "total-offense", "scoring"]

/-- The per-category loop of `scrape_multiple_categories` for basketball:
each category is scraped in turn and stored under its name; an exception
from a category scrape would propagate. -/
def scrapeCategoriesBB (env : ScrapeEnv) (season : String) :
    List String → Except PyExc (List (String × DataFrame))
  | [] => Except.ok []
  | c :: cs =>
    match (scrape_ncaa_basketball_stats env season c).1 with
    | Except.error e => Except.error e
    | Except.ok df =>
      match scrapeCategoriesBB env season cs with
      | Except.error e => Except.error e
      | Except.ok rest => Except.ok ((c, df) :: rest)

/-- The per-category loop of `scrape_multiple_categories` for football. -/
def scrapeCategoriesFB (env : ScrapeEnv) (season : String) :
    List String → Except PyExc (List (String × DataFrame))
  | [] => Except.ok []
  | c :: cs =>
    match (scrape_ncaa_football_stats env season c).1 with
    | Except.error e => Except.error e
    | Except.ok df =>
      match scrapeCategoriesFB env season cs with
      | Except.error e => Except.error e
      | Except.ok rest => Except.ok ((c, df) :: rest)

/-- Model of Python `str.lower()`: lower-case every character. -/
def strLower (s : String) : String := String.mk (s.data.map Char.toLower)

/-- `NCAAScraper.scrape_multiple_categories` (ncaa_scraper.py lines
209-236): dispatch on the lower-cased sport name; an unsupported sport is
logged and yields the empty mapping. -/
def scrape_multiple_categories (env : ScrapeEnv) (sport season : String) :
    Except PyExc (List (String × DataFrame)) :=
  if strLower sport = "basketball" then
    scrapeCategoriesBB env season basketballCategories
  else if strLower sport = "football" then
    scrapeCategoriesFB env season footballCategories
  else Except.ok []

/-! ## Load stage (data_loader.py) -/

/-- `df[col] = None` for a fresh column: append the name and a null cell to
every row. -/
def DataFrame.addNullColumn (df : DataFrame) (c : String) : DataFrame :=
  ⟨df.cols ++ [c], df.rows.map (fun r => r ++ [Cell.null])⟩

/-- The loop `for col in expected_cols: if col not in df.columns:
df[col] = None` of the typed loaders. -/
def ensureCols (df : DataFrame) (expected : List String) : DataFrame :=
  expected.foldl (fun d c => if c ∈ d.cols then d else d.addNullColumn c) df

/-- `df = df[expected_cols]`: select and reorder columns by name. -/
def DataFrame.selectCols (df : DataFrame) (cs : List String) : DataFrame :=
  ⟨cs, df.rows.map (fun r => cs.map (fun c => rowLookup df.cols r c))⟩

/-- The fixed expected basketball schema of
`SportsDataLoader.load_ncaa_basketball_stats` (data_loader.py lines 66-72). -/
def basketball_expected_cols : List String :=
  ["player_name", "team_name", "games_played", "points_per_game",
   "field_goals_made", "field_goals_attempted", "free_throws_made",
   "free_throws_attempted", "three_pointers_made",
   "three_pointers_attempted", "rebounds_per_game", "assists_per_game",
   "steals_per_game", "blocks_per_game", "turnovers_per_game"]

/-- The fixed expected football schema of
`SportsDataLoader.load_ncaa_football_stats` (data_loader.py lines 95-99). -/
def football_expected_cols : List String :=
  ["player_name", "team_name", "position", "games_played", "passing_yards",
   "passing_touchdowns", "interceptions_thrown", "rushing_yards",
   "rushing_touchdowns", "receiving_yards", "receiving_touchdowns",
   "total_tackles", "sacks", "fumbles_recovered"]

/-- `SportsDataLoader.load_ncaa_basketball_stats` (data_loader.py lines
55-82), up to the write: add each missing expected column as nulls, then
keep exactly the expected columns; the resulting frame is what
`load_dataframe_to_table` appends. -/
def load_ncaa_basketball_stats (df : DataFrame) : DataFrame :=
  (ensureCols df basketball_expected_cols).selectCols basketball_expected_cols

/-- `SportsDataLoader.load_ncaa_football_stats` (data_loader.py lines
84-109), up to the write. -/
def load_ncaa_football_stats (df : DataFrame) : DataFrame :=
  (ensureCols df football_expected_cols).selectCols football_expected_cols

/-- `SportsDataLoader.load_dataframe_to_table` with `if_exists='append'`:
the frame rows are appended to the existing table rows. -/
def load_dataframe_to_table (table : List (List Cell)) (df : DataFrame) :
    List (List Cell) :=
  table ++ df.rows

/-- A write failure raised by `df.to_sql` (connection or constraint). -/
inductive PersistErr where
  | writeFailure (msg : String) : PersistErr
deriving DecidableEq, Repr

/-- Database-side oracle: whether a given write succeeds. -/
structure DbEnv where
  write : String → DataFrame → Except PersistErr Unit

/-- Table name chosen by `load_processed_data_to_db` per `table_type`. -/
def tableNameFor (table_type season : String) : String :=
  if table_type = "basketball_stats" then "ncaa_basketball_stats_" ++ season
  else if table_type = "football_stats" then "ncaa_football_stats_" ++ season
  else "ncaa_" ++ table_type ++ "_" ++ season

/-- Frame actually written by `load_processed_data_to_db` per
`table_type`: typed targets align to their schema, a generic target is
written as-is. -/
def dispatchFrame (df : DataFrame) (table_type : String) : DataFrame :=
  if table_type = "basketball_stats" then load_ncaa_basketball_stats df
  else if table_type = "football_stats" then load_ncaa_football_stats df
  else df

/-- `load_processed_data_to_db` (data_loader.py lines 181-210): dispatch
to a typed or generic loader inside `try`, return `True` on success; the
`except` clause catches a write failure and returns `False`. -/
def load_processed_data_to_db (df : DataFrame) (table_type : String)
    (db : DbEnv) (season : String) : Bool :=
  match db.write (tableNameFor table_type season) (dispatchFrame df table_type) with
  | Except.ok _ => true
  | Except.error _ => false

/-- Numeric value of a Python `bool` (`bool` is an `int` subclass:
`True == 1`, `False == 0`); used to compare the loader return value
against a row count. -/
def pyBoolVal (b : Bool) : Nat := if b then 1 else 0

/-! ## ETL pipeline selenium extractor (etl_pipeline.py) -/

/-- `SportsETLPipeline.extract_with_selenium` (etl_pipeline.py lines
59-88): `try` creates the browser, navigates, sleeps, and returns the
live driver; `except Exception` logs and returns `None`. There is no
`finally`: a browser created before an exception is never quit, and a
successful call hands the still-running driver to the caller. The first
component is the returned value (`some` = a live driver), the second the
driver resource state at return. -/
def extract_with_selenium (env : ScrapeEnv) (url : String) :
    Option Unit × DriverState :=
  match env.dynamicRun url with
  | DynOutcome.createFail => (none, { created := false, quitCalled := false })
  | DynOutcome.navFail => (none, { created := true, quitCalled := false })
  | DynOutcome.loaded _ _ => (some (), { created := true, quitCalled := false })

/-! ## Scrape job lifecycle (models.py, views.py) -/

/-- The `STATUS_CHOICES` of `ScrapingJob` (models.py lines 8-13). -/
inductive JobStatus where
  | pending : JobStatus
  | running : JobStatus
  | completed : JobStatus
  | failed : JobStatus
deriving DecidableEq, Repr

/-- A terminal job state. -/
def JobStatus.terminal (s : JobStatus) : Prop :=
  s = JobStatus.completed ∨ s = JobStatus.failed

/-- The mutable fields of a `ScrapingJob` row touched by the pipeline
(models.py lines 4-24). -/
structure ScrapingJob where
  status : JobStatus
  completed_at : Option Nat
  records_processed : Nat
  error_message : String
deriving DecidableEq, Repr

/-- `ScrapingJob.objects.create(...)` with the model field defaults:
`status='pending'`, `completed_at` null, `records_processed=0`,
`error_message` blank. -/
def jobCreate : ScrapingJob :=
  { status := JobStatus.pending, completed_at := none,
    records_processed := 0, error_message := "" }

/-- Error message attached when a Python exception reaches the job-level
`except` handler. -/
def PyExc.message : PyExc → String
  | PyExc.network => "network error"
  | PyExc.webdriver => "webdriver error"
  | PyExc.other msg => msg

/-- `pd.DataFrame.empty`: true when the frame has no items
(either axis has length zero). -/
def DataFrame.pdEmpty (df : DataFrame) : Bool :=
  df.rows.isEmpty || df.cols.isEmpty

/-- The accumulation loop of `execute_etl_process` over one sport's
category results: `if not df.empty: load(...); total_records += len(df)`
(the loader's boolean return value is discarded by the caller). -/
def recordsFrom (m : List (String × DataFrame)) : Nat :=
  m.foldl (fun t cd => if ¬cd.2.pdEmpty then t + cd.2.rows.length else t) 0

/-- `execute_etl_process` (views.py lines 66-110): under `try`, scrape
every basketball and football category, load each non-empty table, and
mark the job `completed` with the total row count; any exception reaching
the handler marks it `failed` and stores the message. `fatal` models an
exception raised by the surrounding machinery (job lookup, engine
creation, save) rather than by the scrapes, which never raise. The
`completed_at` field is not assigned on any path. -/
def execute_etl_process (env : ScrapeEnv) (fatal : Option String)
    (job : ScrapingJob) : ScrapingJob :=
  match fatal with
  | some msg => { job with status := JobStatus.failed, error_message := msg }
  | none =>
    match scrape_multiple_categories env "basketball" "2023",
          scrape_multiple_categories env "football" "2023" with
    | Except.ok bb, Except.ok fb =>
        { job with status := JobStatus.completed,
                   records_processed := recordsFrom bb + recordsFrom fb }
    | Except.error e, _ =>
        { job with status := JobStatus.failed, error_message := e.message }
    | _, Except.error e =>
        { job with status := JobStatus.failed, error_message := e.message }

/-- `run_scraper` (views.py lines 36-64) followed by the background
thread: the job states a single invocation moves through, in order —
created `pending`, saved `running` before the thread starts, then the
single state `execute_etl_process` leaves it in. -/
def run_scraper_job_trace (env : ScrapeEnv) (fatal : Option String) :
    List ScrapingJob :=
  let j0 := jobCreate
  let j1 := { j0 with status := JobStatus.running }
  let j2 := execute_etl_process env fatal j1
  [j0, j1, j2]

/-! ## Demo-data regeneration (management/commands/create_sample_data.py) -/

/-- A persisted `BasketballStats` row (models.py lines 43-65); float stat
values are modelled as opaque integers, the command only stores the drawn
values. -/
structure BasketballStatsRow where
  player_name : String
  team_name : String
  season : String
  games_played : Nat
  points_per_game : Int
  field_goal_percentage : Int
  three_point_percentage : Int
  free_throw_percentage : Int
  rebounds_per_game : Int
  assists_per_game : Int
  steals_per_game : Int
  blocks_per_game : Int
  turnovers_per_game : Int
  minutes_per_game : Int
  is_demo_data : Bool
deriving DecidableEq, Repr

/-- A persisted `FootballStats` row (models.py lines 67-91). -/
structure FootballStatsRow where
  player_name : String
  team_name : String
  position : String
  season : String
  games_played : Nat
  passing_yards : Int
  passing_touchdowns : Int
  interceptions_thrown : Int
  rushing_yards : Int
  rushing_touchdowns : Int
  receiving_yards : Int
  receiving_touchdowns : Int
  total_tackles : Int
  sacks : Int
  interceptions : Int
  fumbles_recovered : Int
  is_demo_data : Bool
deriving DecidableEq, Repr

/-- One iteration's random draws in `create_sample_basketball_data`
(name/team choices and the drawn stat values). -/
structure BBDraw where
  first : String
  last : String
  team : String
  games_played : Nat
  points_per_game : Int
  field_goal_percentage : Int
  three_point_percentage : Int
  free_throw_percentage : Int
  rebounds_per_game : Int
  assists_per_game : Int
  steals_per_game : Int
  blocks_per_game : Int
  turnovers_per_game : Int
  minutes_per_game : Int
deriving DecidableEq, Repr

/-- The `BasketballStats.objects.create(..., is_demo_data=True)` call. -/
def mkBasketballRow (d : BBDraw) (player_name : String) :
    BasketballStatsRow :=
  { player_name := player_name, team_name := d.team, season := "2023",
    games_played := d.games_played,
    points_per_game := d.points_per_game,
    field_goal_percentage := d.field_goal_percentage,
    three_point_percentage := d.three_point_percentage,
    free_throw_percentage := d.free_throw_percentage,
    rebounds_per_game := d.rebounds_per_game,
    assists_per_game := d.assists_per_game,
    steals_per_game := d.steals_per_game,
    blocks_per_game := d.blocks_per_game,
    turnovers_per_game := d.turnovers_per_game,
    minutes_per_game := d.minutes_per_game,
    is_demo_data := true }

/-- The `while i < 20` creation loop of `create_sample_basketball_data`
(lines 60-104): draw, build the numbered unique name, skip the draw when
the name was already used, otherwise create the row and advance `i`. The
finite draw list is the consumed prefix of the random stream. -/
def createBasketballLoop : List BBDraw → List String → Nat →
    List BasketballStatsRow
  | [], _, _ => []
  | d :: ds, used, i =>
    if i < 20 then
      let player_name := d.first ++ " " ++ d.last ++ " Demo " ++ toString (i + 1)
      if player_name ∈ used then createBasketballLoop ds used i
      else mkBasketballRow d player_name ::
        createBasketballLoop ds (player_name :: used) (i + 1)
    else []

/-- `Command.create_sample_basketball_data` (create_sample_data.py lines
49-104): `BasketballStats.objects.filter(is_demo_data=True).delete()`
removes exactly the flagged rows, then the creation loop appends fresh
demo rows. -/
def create_sample_basketball_data (db : List BasketballStatsRow)
    (draws : List BBDraw) : List BasketballStatsRow :=
  let remaining := db.filter (fun r => r.is_demo_data = false)
  remaining ++ createBasketballLoop draws [] 0

/-- One iteration's random draws in `create_sample_football_data`. -/
structure FBDraw where
  first : String
  last : String
  team : String
  position : String
  games_played : Nat
  passing_yards : Int
  passing_touchdowns : Int
  interceptions_thrown : Int
  rushing_yards : Int
  rushing_touchdowns : Int
  receiving_yards : Int
  receiving_touchdowns : Int
  total_tackles : Int
  sacks : Int
  interceptions : Int
  fumbles_recovered : Int
deriving DecidableEq, Repr

/-- The position-dependent stat assembly plus
`FootballStats.objects.create(..., is_demo_data=True)` (create_sample_data.py
lines 137-207): each position branch zeroes the stats the code does not
draw for that position. -/
def mkFootballRow (d : FBDraw) (player_name : String) : FootballStatsRow :=
  let base : FootballStatsRow :=
    { player_name := player_name, team_name := d.team,
      position := d.position, season := "2023",
      games_played := d.games_played,
      passing_yards := d.passing_yards,
      passing_touchdowns := d.passing_touchdowns,
      interceptions_thrown := d.interceptions_thrown,
      rushing_yards := d.rushing_yards,
      rushing_touchdowns := d.rushing_touchdowns,
      receiving_yards := d.receiving_yards,
      receiving_touchdowns := d.receiving_touchdowns,
      total_tackles := d.total_tackles, sacks := d.sacks,
      interceptions := d.interceptions,
      fumbles_recovered := d.fumbles_recovered,
      is_demo_data := true }
  if d.position = "QB" then
    { base with receiving_yards := 0, receiving_touchdowns := 0 }
  else if d.position = "RB" then
    { base with passing_yards := 0, passing_touchdowns := 0,
                interceptions_thrown := 0, sacks := 0, interceptions := 0 }
  else if d.position = "WR" ∨ d.position = "TE" then
    { base with passing_yards := 0, passing_touchdowns := 0,
                interceptions_thrown := 0, sacks := 0, interceptions := 0 }
  else base

/-- The `while i < 20` creation loop of `create_sample_football_data`. -/
def createFootballLoop : List FBDraw → List String → Nat →
    List FootballStatsRow
  | [], _, _ => []
  | d :: ds, used, i =>
    if i < 20 then
      let player_name := d.first ++ " " ++ d.last ++ " Demo " ++ toString (i + 1)
      if player_name ∈ used then createFootballLoop ds used i
      else mkFootballRow d player_name ::
        createFootballLoop ds (player_name :: used) (i + 1)
    else []

/-- `Command.create_sample_football_data` (create_sample_data.py lines
106-208). -/
def create_sample_football_data (db : List FootballStatsRow)
    (draws : List FBDraw) : List FootballStatsRow :=
  let remaining := db.filter (fun r => r.is_demo_data = false)
  remaining ++ createFootballLoop draws [] 0

/-! ## Characterisations of the strategies and the orchestrator -/

/-- Rows the static strategy hands back for a URL: none on a fetch
failure, the parsed table rows otherwise. -/
def staticRows (env : ScrapeEnv) (url : String) : List RawRow :=
  match env.staticFetch url with
  | Except.error _ => []
  | Except.ok page => parseTableRows page

/-- Rows the dynamic strategy hands back for a URL: none unless the
browser session loads. -/
def dynamicRows (env : ScrapeEnv) (url : String) : List RawRow :=
  match env.dynamicRun url with
  | DynOutcome.loaded _ rows => rows.map (dynRowData url)
  | _ => []

/-- Whether the browser session for a URL gets past `webdriver.Chrome`. -/
def dynCreated (env : ScrapeEnv) (url : String) : Bool :=
  match env.dynamicRun url with
  | DynOutcome.createFail => false
  | _ => true

/-- Whether the dynamic strategy failed outright for a URL. -/
def dynFailed (o : DynOutcome) : Bool :=
  match o with
  | DynOutcome.loaded _ _ => false
  | _ => true

/-- Whether a fetch outcome is a network failure. -/
def fetchFailed (o : FetchOutcome) : Bool :=
  match o with
  | Except.error _ => true
  | Except.ok _ => false

/-- Whether a scraper call let an exception escape. -/
def raisedExc (o : Except PyExc (List RawRow)) : Bool :=
  match o with
  | Except.error _ => true
  | Except.ok _ => false

/-- The table a category ends up with after escalation and normalization. -/
def categoryFrame (env : ScrapeEnv) (url : String) : DataFrame :=
  if (staticRows env url).length < 5 then
    clean_and_structure_data (dynamicRows env url)
  else clean_and_structure_data (staticRows env url)

theorem scrape_basic_eq (env : ScrapeEnv) (url : String) :
    scrape_ncaa_basic_data env url = Except.ok (staticRows env url) := by
  unfold scrape_ncaa_basic_data staticRows
  cases env.staticFetch url <;> rfl

theorem scrape_dynamic_eq (env : ScrapeEnv) (url : String) :
    scrape_ncaa_dynamic_data env url =
      (Except.ok (dynamicRows env url),
       { created := dynCreated env url, quitCalled := dynCreated env url }) := by
  unfold scrape_ncaa_dynamic_data dynamicRows dynCreated
  cases env.dynamicRun url <;> rfl

theorem bb_stats_eq (env : ScrapeEnv) (season category : String) :
    scrape_ncaa_basketball_stats env season category =
      (if (staticRows env (bbUrl category season)).length < 5 then
        (Except.ok (clean_and_structure_data
            (dynamicRows env (bbUrl category season))),
         [Call.static (bbUrl category season),
          Call.dynamic (bbUrl category season)])
      else
        (Except.ok (clean_and_structure_data
            (staticRows env (bbUrl category season))),
         [Call.static (bbUrl category season)])) := by
  unfold scrape_ncaa_basketball_stats
  rw [scrape_basic_eq, scrape_dynamic_eq]

theorem fb_stats_eq (env : ScrapeEnv) (season category : String) :
    scrape_ncaa_football_stats env season category =
      (if (staticRows env (fbUrl category season)).length < 5 then
        (Except.ok (clean_and_structure_data
            (dynamicRows env (fbUrl category season))),
         [Call.static (fbUrl category season),
          Call.dynamic (fbUrl category season)])
      else
        (Except.ok (clean_and_structure_data
            (staticRows env (fbUrl category season))),
         [Call.static (fbUrl category season)])) := by
  unfold scrape_ncaa_football_stats
  rw [scrape_basic_eq, scrape_dynamic_eq]

theorem bb_stats_frame (env : ScrapeEnv) (season category : String) :
    (scrape_ncaa_basketball_stats env season category).1 =
      Except.ok (categoryFrame env (bbUrl category season)) := by
  rw [bb_stats_eq]; unfold categoryFrame; split <;> rfl

theorem fb_stats_frame (env : ScrapeEnv) (season category : String) :
    (scrape_ncaa_football_stats env season category).1 =
      Except.ok (categoryFrame env (fbUrl category season)) := by
  rw [fb_stats_eq]; unfold categoryFrame; split <;> rfl

theorem scrapeCategoriesBB_eq (env : ScrapeEnv) (season : String) :
    ∀ cs : List String, scrapeCategoriesBB env season cs =
      Except.ok (cs.map (fun c => (c, categoryFrame env (bbUrl c season))))
  | [] => rfl
  | c :: cs => by
    unfold scrapeCategoriesBB
    rw [bb_stats_frame, scrapeCategoriesBB_eq env season cs]
    rfl

theorem scrapeCategoriesFB_eq (env : ScrapeEnv) (season : String) :
    ∀ cs : List String, scrapeCategoriesFB env season cs =
      Except.ok (cs.map (fun c => (c, categoryFrame env (fbUrl c season))))
  | [] => rfl
  | c :: cs => by
    unfold scrapeCategoriesFB
    rw [fb_stats_frame, scrapeCategoriesFB_eq env season cs]
    rfl

theorem smc_basketball_eq (env : ScrapeEnv) (season : String) :
    scrape_multiple_categories env "basketball" season =
      Except.ok (basketballCategories.map
        (fun c => (c, categoryFrame env (bbUrl c season)))) := by
  unfold scrape_multiple_categories
  rw [if_pos (by decide)]
  exact scrapeCategoriesBB_eq env season basketballCategories

theorem smc_football_eq (env : ScrapeEnv) (season : String) :
    scrape_multiple_categories env "football" season =
      Except.ok (footballCategories.map
        (fun c => (c, categoryFrame env (fbUrl c season)))) := by
  unfold scrape_multiple_categories
  rw [if_neg (by decide), if_pos (by decide)]
  exact scrapeCategoriesFB_eq env season footballCategories

/-- A category both of whose strategies failed yields the empty table. -/
theorem categoryFrame_failed (env : ScrapeEnv) (url : String)
    (hs : fetchFailed (env.staticFetch url) = true)
    (hd : dynFailed (env.dynamicRun url) = true) :
    categoryFrame env url = DataFrame.empty := by
  have hsr : staticRows env url = [] := by
    unfold staticRows
    unfold fetchFailed at hs
    cases h : env.staticFetch url with
    | error e => rfl
    | ok page => rw [h] at hs; simp at hs
  have hdr : dynamicRows env url = [] := by
    unfold dynamicRows
    unfold dynFailed at hd
    cases h : env.dynamicRun url with
    | createFail => rfl
    | navFail => rfl
    | loaded t rows => rw [h] at hd; simp at hd
  unfold categoryFrame
  rw [hsr, hdr]
  rfl

/-! ## Column-alignment lemmas for the typed load stage -/

theorem rowLookup_not_mem (cols : List String) (r : List Cell) (c : String)
    (h : c ∉ cols) : rowLookup cols r c = Cell.null := by
  induction cols generalizing r with
  | nil => cases r <;> rfl
  | cons c0 cs ih =>
    cases r with
    | nil => rfl
    | cons v vs =>
      have hne : c0 ≠ c := fun he => h (he ▸ List.mem_cons_self c0 cs)
      simp only [rowLookup, if_neg hne]
      exact ih vs (fun hc => h (List.mem_cons_of_mem c0 hc))

theorem rowLookup_map (cs : List String) (f : String → Cell) (c : String) :
    rowLookup cs (cs.map f) c = if c ∈ cs then f c else Cell.null := by
  induction cs with
  | nil => simp [rowLookup]
  | cons c0 cs ih =>
    simp only [List.map_cons, rowLookup]
    by_cases h : c0 = c
    · subst h
      simp
    · rw [if_neg h, ih]
      by_cases hm : c ∈ cs
      · rw [if_pos hm, if_pos (List.mem_cons_of_mem c0 hm)]
      · rw [if_neg hm, if_neg (fun hcc =>
          (List.mem_cons.mp hcc).elim (fun he => h he.symm) hm)]

theorem getCol_not_mem (df : DataFrame) (c : String) (h : c ∉ df.cols) :
    df.getCol c = List.replicate df.rows.length Cell.null := by
  unfold DataFrame.getCol
  rw [List.eq_replicate_iff]
  refine ⟨by simp, ?_⟩
  intro x hx
  rcases List.mem_map.mp hx with ⟨r, _, hr⟩
  rw [← hr, rowLookup_not_mem df.cols r c h]

theorem rowLookup_append (cols : List String) (r : List Cell)
    (h : r.length = cols.length) (cNew c : String) (v : Cell) :
    rowLookup (cols ++ [cNew]) (r ++ [v]) c =
      if c ∈ cols then rowLookup cols r c
      else if cNew = c then v else Cell.null := by
  induction cols generalizing r with
  | nil =>
    rw [List.length_nil, List.length_eq_zero] at h
    subst h
    simp [rowLookup]
  | cons c0 cs ih =>
    cases r with
    | nil => simp at h
    | cons v0 vs =>
      simp only [List.length_cons, Nat.succ.injEq] at h
      by_cases hc : c0 = c
      · subst hc
        simp [rowLookup]
      · have hL : rowLookup ((c0 :: cs) ++ [cNew]) ((v0 :: vs) ++ [v]) c
            = rowLookup (cs ++ [cNew]) (vs ++ [v]) c := by
          simp [rowLookup, hc]
        have hR : rowLookup (c0 :: cs) (v0 :: vs) c = rowLookup cs vs c := by
          simp [rowLookup, hc]
        rw [hL, ih vs h]
        by_cases hm : c ∈ cs
        · rw [if_pos hm, if_pos (List.mem_cons_of_mem c0 hm), hR]
        · rw [if_neg hm, if_neg (fun hcc =>
            (List.mem_cons.mp hcc).elim (fun he => hc he.symm) hm)]

theorem addNullColumn_rect (df : DataFrame) (hrect : df.Rect)
    (cNew : String) : (df.addNullColumn cNew).Rect := by
  intro r hr
  rcases List.mem_map.mp hr with ⟨r0, hr0, he⟩
  subst he
  simp [DataFrame.addNullColumn, hrect r0 hr0]

theorem addNullColumn_getCol (df : DataFrame) (hrect : df.Rect)
    (cNew c : String) :
    (df.addNullColumn cNew).getCol c =
      if c ∈ df.cols then df.getCol c
      else List.replicate df.rows.length Cell.null := by
  unfold DataFrame.getCol DataFrame.addNullColumn
  simp only [List.map_map]
  by_cases h : c ∈ df.cols
  · rw [if_pos h]
    refine List.map_congr_left ?_
    intro r hr
    simp only [Function.comp_apply]
    rw [rowLookup_append df.cols r (hrect r hr) cNew c Cell.null, if_pos h]
  · rw [if_neg h, List.eq_replicate_iff]
    refine ⟨by simp, ?_⟩
    intro x hx
    rcases List.mem_map.mp hx with ⟨r, hr, he⟩
    rw [← he]
    simp only [Function.comp_apply]
    rw [rowLookup_append df.cols r (hrect r hr) cNew c Cell.null, if_neg h]
    split <;> rfl

theorem ensureCols_getCol (E : List String) (df : DataFrame)
    (hrect : df.Rect) (c : String) :
    (ensureCols df E).getCol c =
      if c ∈ df.cols then df.getCol c
      else List.replicate df.rows.length Cell.null := by
  induction E generalizing df with
  | nil =>
    by_cases h : c ∈ df.cols
    · rw [if_pos h]; rfl
    · rw [if_neg h]
      exact getCol_not_mem df c h
  | cons e E ih =>
    show (ensureCols (if e ∈ df.cols then df else df.addNullColumn e) E).getCol c = _
    by_cases he : e ∈ df.cols
    · rw [if_pos he]
      exact ih df hrect
    · rw [if_neg he]
      rw [ih (df.addNullColumn e) (addNullColumn_rect df hrect e)]
      have hlen : (df.addNullColumn e).rows.length = df.rows.length := by
        simp [DataFrame.addNullColumn]
      by_cases hc : c ∈ df.cols
      · have hc2 : c ∈ (df.addNullColumn e).cols := by
          simp [DataFrame.addNullColumn, hc]
        rw [if_pos hc2, if_pos hc, addNullColumn_getCol df hrect e c, if_pos hc]
      · rw [if_neg hc, hlen]
        by_cases hce : c ∈ (df.addNullColumn e).cols
        · rw [if_pos hce, addNullColumn_getCol df hrect e c, if_neg hc]
        · rw [if_neg hce]

theorem selectCols_getCol (df : DataFrame) (cs : List String) (c : String)
    (h : c ∈ cs) : (df.selectCols cs).getCol c = df.getCol c := by
  unfold DataFrame.selectCols DataFrame.getCol
  simp only [List.map_map]
  refine List.map_congr_left ?_
  intro r _
  simp only [Function.comp_apply]
  rw [rowLookup_map cs (fun c2 => rowLookup df.cols r c2) c, if_pos h]

theorem align_getCol (df : DataFrame) (hrect : df.Rect) (E : List String)
    (c : String) (hc : c ∈ E) :
    ((ensureCols df E).selectCols E).getCol c =
      if c ∈ df.cols then df.getCol c
      else List.replicate df.rows.length Cell.null := by
  rw [selectCols_getCol _ E c hc, ensureCols_getCol E df hrect c]

/-! ## Demo-data lemmas -/

theorem createBasketballLoop_demo (draws : List BBDraw) :
    ∀ (used : List String) (i : Nat),
      ∀ r ∈ createBasketballLoop draws used i, r.is_demo_data = true := by
  induction draws with
  | nil => intro used i r hr; simp [createBasketballLoop] at hr
  | cons d ds ih =>
    intro used i r hr
    unfold createBasketballLoop at hr
    by_cases hi : i < 20
    · rw [if_pos hi] at hr
      by_cases hu : (d.first ++ " " ++ d.last ++ " Demo " ++ toString (i + 1)) ∈ used
      · rw [if_pos hu] at hr
        exact ih used i r hr
      · rw [if_neg hu] at hr
        rcases List.mem_cons.mp hr with he | hm
        · rw [he]; rfl
        · exact ih _ _ r hm
    · rw [if_neg hi] at hr
      simp at hr

theorem createFootballLoop_demo (draws : List FBDraw) :
    ∀ (used : List String) (i : Nat),
      ∀ r ∈ createFootballLoop draws used i, r.is_demo_data = true := by
  induction draws with
  | nil => intro used i r hr; simp [createFootballLoop] at hr
  | cons d ds ih =>
    intro used i r hr
    unfold createFootballLoop at hr
    by_cases hi : i < 20
    · rw [if_pos hi] at hr
      by_cases hu : (d.first ++ " " ++ d.last ++ " Demo " ++ toString (i + 1)) ∈ used
      · rw [if_pos hu] at hr
        exact ih used i r hr
      · rw [if_neg hu] at hr
        rcases List.mem_cons.mp hr with he | hm
        · rw [he]
          unfold mkFootballRow
          split <;> try rfl
          split <;> try rfl
          split <;> rfl
        · exact ih _ _ r hm
    · rw [if_neg hi] at hr
      simp at hr

/-! ## Concrete environments and inputs -/

/-- A five-row static page (each row one cell). -/
def pageFive : List (List String) :=
  [["a"], ["b"], ["c"], ["d"], ["e"]]

/-- Every HTTP GET fails and the browser never launches. -/
def envAllFail : ScrapeEnv :=
  { staticFetch := fun _ => Except.error PyExc.network,
    dynamicRun := fun _ => DynOutcome.createFail }

/-- The browser is created and then hits an exception on every URL. -/
def envNavFail : ScrapeEnv :=
  { staticFetch := fun _ => Except.ok [],
    dynamicRun := fun _ => DynOutcome.navFail }

/-- Every browser session loads an empty page. -/
def envLoaded : ScrapeEnv :=
  { staticFetch := fun _ => Except.ok [],
    dynamicRun := fun _ => DynOutcome.loaded false [] }

/-- The basketball scoring URL fails statically, every other URL serves
five rows; the browser always delivers one row. -/
def envMixed : ScrapeEnv :=
  { staticFetch := fun url =>
      if url = bbUrl "scoring" "2023" then Except.error PyExc.network
      else Except.ok pageFive,
    dynamicRun := fun _ => DynOutcome.loaded false [⟨"<tr/>", "x"⟩] }

/-- The basketball scoring URL fails both statically and dynamically,
every other URL succeeds. -/
def envOneFail : ScrapeEnv :=
  { staticFetch := fun url =>
      if url = bbUrl "scoring" "2023" then Except.error PyExc.network
      else Except.ok pageFive,
    dynamicRun := fun url =>
      if url = bbUrl "scoring" "2023" then DynOutcome.navFail
      else DynOutcome.loaded false [⟨"<tr/>", "x"⟩] }

/-- A database connection on which every write succeeds. -/
def dbOk : DbEnv := ⟨fun _ _ => Except.ok ()⟩

/-- A database connection on which every write fails. -/
def dbFail : DbEnv := ⟨fun _ _ => Except.error (PersistErr.writeFailure "write failed")⟩

/-- The spec scenario input: a table missing `rebounds_per_game`. -/
def dfMissingReb : DataFrame :=
  ⟨["player_name", "team_name"], [[Cell.str "Alice", Cell.str "Tigers"]]⟩

/-- A scraped (non-demo) basketball row. -/
def bbScrapedRow : BasketballStatsRow :=
  { player_name := "Real Player", team_name := "Tigers", season := "2023",
    games_played := 30, points_per_game := 20, field_goal_percentage := 45,
    three_point_percentage := 38, free_throw_percentage := 80,
    rebounds_per_game := 7, assists_per_game := 5, steals_per_game := 1,
    blocks_per_game := 1, turnovers_per_game := 2, minutes_per_game := 33,
    is_demo_data := false }

/-- A scraped (non-demo) football row. -/
def fbScrapedRow : FootballStatsRow :=
  { player_name := "Real QB", team_name := "Eagles", position := "QB",
    season := "2023", games_played := 16, passing_yards := 4000,
    passing_touchdowns := 30, interceptions_thrown := 8,
    rushing_yards := 200, rushing_touchdowns := 3, receiving_yards := 0,
    receiving_touchdowns := 0, total_tackles := 1, sacks := 0,
    interceptions := 0, fumbles_recovered := 1, is_demo_data := false }

/-- `List.lookup` over a list that pairs each key with a function of it. -/
theorem lookup_map_pairs {β : Type} (f : String → β) :
    ∀ (cs : List String) (c : String), c ∈ cs →
      List.lookup c (cs.map (fun x => (x, f x))) = some (f c)
  | [], c, h => absurd h (List.not_mem_nil c)
  | c0 :: cs, c, h => by
    by_cases he : c = c0
    · subst he
      simp [List.lookup]
    · have hm : c ∈ cs := (List.mem_cons.mp h).elim (fun x => absurd x he) id
      have hb : (c == c0) = false := beq_eq_false_iff_ne.mpr he
      simp [List.lookup, hb, lookup_map_pairs f cs c hm]

/-! ## Claim theorems -/

/-- C1, counterexample: at a URL whose HTTP GET raises a network error,
the static strategy does not propagate any exception — the handler
converts the failure into the normal result `[]`. -/
theorem spec_C1_counterexample :
    envAllFail.staticFetch (bbUrl "scoring" "2023") = Except.error PyExc.network
    ∧ scrape_ncaa_basic_data envAllFail (bbUrl "scoring" "2023") = Except.ok []
    ∧ raisedExc (scrape_ncaa_basic_data envAllFail (bbUrl "scoring" "2023")) = false :=
  ⟨rfl, rfl, rfl⟩

/-- C1 (amended): when the static strategy's HTTP GET yields a non-2xx
status or a connection failure, `scrape_ncaa_basic_data` catches the
exception and returns the empty row list as a normal result; no
`NetworkError` is propagated to the caller. -/
theorem spec_C1 (env : ScrapeEnv) (url : String) (e : PyExc)
    (h : env.staticFetch url = Except.error e) :
    scrape_ncaa_basic_data env url = Except.ok [] := by
  unfold scrape_ncaa_basic_data
  rw [h]

/-- C1 witness: the amended theorem at a concrete failing fetch. -/
theorem spec_C1_witness :
    scrape_ncaa_basic_data envAllFail (bbUrl "rebounding" "2023") = Except.ok [] :=
  spec_C1 envAllFail (bbUrl "rebounding" "2023") PyExc.network rfl

/-- C2, counterexample: a successful load of the empty table returns the
boolean `True` (numeric value 1), not the row count 0. -/
theorem spec_C2_counterexample :
    load_processed_data_to_db DataFrame.empty "basketball_stats" dbOk "2023" = true
    ∧ DataFrame.empty.rows.length = 0
    ∧ pyBoolVal (load_processed_data_to_db DataFrame.empty "basketball_stats" dbOk "2023") ≠ 0 :=
  ⟨rfl, rfl, by decide⟩

/-- C2 (amended): a Load Stage call returns a boolean success flag, not a
row count: `true` whenever the underlying write succeeds — including for
an empty input table — and `false` when the write fails. -/
theorem spec_C2 (df : DataFrame) (table_type season : String) (db : DbEnv) :
    (db.write (tableNameFor table_type season) (dispatchFrame df table_type)
        = Except.ok () →
      load_processed_data_to_db df table_type db season = true)
    ∧ (∀ e, db.write (tableNameFor table_type season) (dispatchFrame df table_type)
        = Except.error e →
      load_processed_data_to_db df table_type db season = false) := by
  constructor
  · intro h
    unfold load_processed_data_to_db
    rw [h]
  · intro e h
    unfold load_processed_data_to_db
    rw [h]

/-- C2 witness: the amended theorem at an empty table over a succeeding
and over a failing connection. -/
theorem spec_C2_witness :
    load_processed_data_to_db DataFrame.empty "football_stats" dbOk "2023" = true
    ∧ load_processed_data_to_db DataFrame.empty "football_stats" dbFail "2023" = false :=
  ⟨(spec_C2 DataFrame.empty "football_stats" "2023" dbOk).1 rfl,
   (spec_C2 DataFrame.empty "football_stats" "2023" dbFail).2
     (PersistErr.writeFailure "write failed") rfl⟩

/-- C3: after `execute_etl_process` the job is terminal (`completed` or
`failed`) yet its `completed_at` field is still null — the code never
assigns it, contradicting the claim that it becomes non-null at a
terminal state. -/
theorem spec_C3 (env : ScrapeEnv) (fatal : Option String) :
    (execute_etl_process env fatal
        { jobCreate with status := JobStatus.running }).status.terminal
    ∧ (execute_etl_process env fatal
        { jobCreate with status := JobStatus.running }).completed_at = none := by
  cases fatal with
  | some msg => exact ⟨Or.inr rfl, rfl⟩
  | none =>
    unfold execute_etl_process
    rw [smc_basketball_eq, smc_football_eq]
    exact ⟨Or.inl rfl, rfl⟩

/-- C4: per category, when the static strategy yields fewer than 5 rows
its output is discarded, the dynamic strategy is invoked on the same URL,
and the final result is the normalization of the dynamic output; when it
yields 5 or more rows, the dynamic strategy is not invoked and the final
result is the normalization of the static output (both sports). -/
theorem spec_C4 (env : ScrapeEnv) (season category : String) :
    ((staticRows env (bbUrl category season)).length < 5 →
      scrape_ncaa_basketball_stats env season category =
        (Except.ok (clean_and_structure_data (dynamicRows env (bbUrl category season))),
         [Call.static (bbUrl category season), Call.dynamic (bbUrl category season)]))
    ∧ (5 ≤ (staticRows env (bbUrl category season)).length →
      scrape_ncaa_basketball_stats env season category =
        (Except.ok (clean_and_structure_data (staticRows env (bbUrl category season))),
         [Call.static (bbUrl category season)]))
    ∧ ((staticRows env (fbUrl category season)).length < 5 →
      scrape_ncaa_football_stats env season category =
        (Except.ok (clean_and_structure_data (dynamicRows env (fbUrl category season))),
         [Call.static (fbUrl category season), Call.dynamic (fbUrl category season)]))
    ∧ (5 ≤ (staticRows env (fbUrl category season)).length →
      scrape_ncaa_football_stats env season category =
        (Except.ok (clean_and_structure_data (staticRows env (fbUrl category season))),
         [Call.static (fbUrl category season)])) := by
  refine ⟨?_, ?_, ?_, ?_⟩
  · intro h
    rw [bb_stats_eq, if_pos h]
  · intro h
    rw [bb_stats_eq, if_neg (Nat.not_lt.mpr h)]
  · intro h
    rw [fb_stats_eq, if_pos h]
  · intro h
    rw [fb_stats_eq, if_neg (Nat.not_lt.mpr h)]

/-- C4 witness: a failing static scrape escalates to the dynamic
strategy; a five-row static scrape does not. -/
theorem spec_C4_witness :
    scrape_ncaa_basketball_stats envMixed "2023" "scoring" =
      (Except.ok (clean_and_structure_data (dynamicRows envMixed (bbUrl "scoring" "2023"))),
       [Call.static (bbUrl "scoring" "2023"), Call.dynamic (bbUrl "scoring" "2023")])
    ∧ scrape_ncaa_football_stats envMixed "2023" "passing" =
      (Except.ok (clean_and_structure_data (staticRows envMixed (fbUrl "passing" "2023"))),
       [Call.static (fbUrl "passing" "2023")]) :=
  ⟨(spec_C4 envMixed "2023" "scoring").1 (by decide),
   (spec_C4 envMixed "2023" "passing").2.2.2 (by decide)⟩

/-- C5: a job's status trace is exactly `pending`, `running`, then one
terminal state, with nothing after the terminal state; when no exception
escapes the orchestration (`fatal = none`), the terminal state is
`completed` regardless of per-category outcomes. -/
theorem spec_C5 (env : ScrapeEnv) (fatal : Option String) :
    ((run_scraper_job_trace env fatal).map ScrapingJob.status
        = [JobStatus.pending, JobStatus.running, JobStatus.completed]
     ∨ (run_scraper_job_trace env fatal).map ScrapingJob.status
        = [JobStatus.pending, JobStatus.running, JobStatus.failed])
    ∧ (fatal = none →
      (run_scraper_job_trace env fatal).map ScrapingJob.status
        = [JobStatus.pending, JobStatus.running, JobStatus.completed]) := by
  cases fatal with
  | some msg =>
    refine ⟨Or.inr rfl, ?_⟩
    intro h
    cases h
  | none =>
    have h2 : (execute_etl_process env none
        { jobCreate with status := JobStatus.running }).status
        = JobStatus.completed := by
      unfold execute_etl_process
      rw [smc_basketball_eq, smc_football_eq]
    have htr : (run_scraper_job_trace env none).map ScrapingJob.status
        = [JobStatus.pending, JobStatus.running,
           (execute_etl_process env none
             { jobCreate with status := JobStatus.running }).status] := rfl
    rw [htr, h2]
    exact ⟨Or.inl rfl, fun _ => rfl⟩

/-- C5 witness: with every scrape failing and no escaping exception the
job still ends `completed`. -/
theorem spec_C5_witness :
    (run_scraper_job_trace envAllFail none).map ScrapingJob.status
      = [JobStatus.pending, JobStatus.running, JobStatus.completed] :=
  (spec_C5 envAllFail none).2 rfl

/-- C6: each typed load target persists a frame with exactly the expected
columns in their fixed order; an expected column present in the input
keeps its values, an expected column absent from the input is all-null,
and input columns outside the expected set are dropped. -/
theorem spec_C6 (df : DataFrame) (hrect : df.Rect) :
    (load_ncaa_basketball_stats df).cols = basketball_expected_cols
    ∧ (∀ c ∈ basketball_expected_cols, c ∈ df.cols →
        (load_ncaa_basketball_stats df).getCol c = df.getCol c)
    ∧ (∀ c ∈ basketball_expected_cols, c ∉ df.cols →
        (load_ncaa_basketball_stats df).getCol c
          = List.replicate df.rows.length Cell.null)
    ∧ (load_ncaa_football_stats df).cols = football_expected_cols
    ∧ (∀ c ∈ football_expected_cols, c ∈ df.cols →
        (load_ncaa_football_stats df).getCol c = df.getCol c)
    ∧ (∀ c ∈ football_expected_cols, c ∉ df.cols →
        (load_ncaa_football_stats df).getCol c
          = List.replicate df.rows.length Cell.null) := by
  refine ⟨rfl, ?_, ?_, rfl, ?_, ?_⟩
  · intro c hc hm
    unfold load_ncaa_basketball_stats
    rw [align_getCol df hrect basketball_expected_cols c hc, if_pos hm]
  · intro c hc hm
    unfold load_ncaa_basketball_stats
    rw [align_getCol df hrect basketball_expected_cols c hc, if_neg hm]
  · intro c hc hm
    unfold load_ncaa_football_stats
    rw [align_getCol df hrect football_expected_cols c hc, if_pos hm]
  · intro c hc hm
    unfold load_ncaa_football_stats
    rw [align_getCol df hrect football_expected_cols c hc, if_neg hm]

/-- C6 witness: the spec scenario — a table missing `rebounds_per_game`
loads with that column all-null and the full expected column list. -/
theorem spec_C6_witness :
    (load_ncaa_basketball_stats dfMissingReb).cols = basketball_expected_cols
    ∧ (load_ncaa_basketball_stats dfMissingReb).getCol "rebounds_per_game"
        = List.replicate dfMissingReb.rows.length Cell.null :=
  ⟨(spec_C6 dfMissingReb
      (by intro r hr; rw [List.mem_singleton.mp hr]; rfl)).1,
   (spec_C6 dfMissingReb
      (by intro r hr; rw [List.mem_singleton.mp hr]; rfl)).2.2.1
     "rebounds_per_game" (by decide) (by decide)⟩

/-- C7: for each sport the orchestrator returns (without raising) one
entry per category of the fixed list, in order, and a category both of
whose strategies failed is mapped to the empty table — failures do not
abort the remaining categories. -/
theorem spec_C7 (env : ScrapeEnv) (season : String) :
    (∃ m, scrape_multiple_categories env "basketball" season = Except.ok m
      ∧ m.map Prod.fst = basketballCategories
      ∧ ∀ c ∈ basketballCategories,
          fetchFailed (env.staticFetch (bbUrl c season)) = true →
          dynFailed (env.dynamicRun (bbUrl c season)) = true →
          m.lookup c = some DataFrame.empty)
    ∧ (∃ m, scrape_multiple_categories env "football" season = Except.ok m
      ∧ m.map Prod.fst = footballCategories
      ∧ ∀ c ∈ footballCategories,
          fetchFailed (env.staticFetch (fbUrl c season)) = true →
          dynFailed (env.dynamicRun (fbUrl c season)) = true →
          m.lookup c = some DataFrame.empty) := by
  constructor
  · refine ⟨_, smc_basketball_eq env season, ?_, ?_⟩
    · rfl
    · intro c hc hs hd
      rw [lookup_map_pairs (fun c => categoryFrame env (bbUrl c season))
            basketballCategories c hc,
          categoryFrame_failed env (bbUrl c season) hs hd]
  · refine ⟨_, smc_football_eq env season, ?_, ?_⟩
    · rfl
    · intro c hc hs hd
      rw [lookup_map_pairs (fun c => categoryFrame env (fbUrl c season))
            footballCategories c hc,
          categoryFrame_failed env (fbUrl c season) hs hd]

/-- C7 witness: with the scoring category failing both strategies, all
five basketball categories are still present and scoring maps to the
empty table. -/
theorem spec_C7_witness :
    ∃ m, scrape_multiple_categories envOneFail "basketball" "2023" = Except.ok m
      ∧ m.map Prod.fst = basketballCategories
      ∧ m.lookup "scoring" = some DataFrame.empty := by
  obtain ⟨m, h1, h2, h3⟩ := (spec_C7 envOneFail "2023").1
  exact ⟨m, h1, h2, h3 "scoring" (by decide) (by decide) (by decide)⟩

/-- C8, counterexample: `extract_with_selenium` creates a browser, hits
an exception while navigating, and returns without quitting it — an exit
path on which the created browser is not torn down. -/
theorem spec_C8_counterexample :
    envNavFail.dynamicRun "https://www.ncaa.com/stats/basketball-men/d1"
      = DynOutcome.navFail
    ∧ (extract_with_selenium envNavFail
        "https://www.ncaa.com/stats/basketball-men/d1").2.created = true
    ∧ (extract_with_selenium envNavFail
        "https://www.ncaa.com/stats/basketball-men/d1").2.quitCalled = false :=
  ⟨rfl, rfl, rfl⟩

/-- C8 (amended): `NCAAScraper.scrape_ncaa_dynamic_data` tears the
browser down before returning on every exit path on which one was
created; `SportsETLPipeline.extract_with_selenium` does not — on an
exception after creation the browser is left running. -/
theorem spec_C8 (env : ScrapeEnv) (url : String) :
    ((scrape_ncaa_dynamic_data env url).2.created = true →
      (scrape_ncaa_dynamic_data env url).2.quitCalled = true)
    ∧ (env.dynamicRun url = DynOutcome.navFail →
      (extract_with_selenium env url).2.created = true
      ∧ (extract_with_selenium env url).2.quitCalled = false) := by
  constructor
  · intro h
    rw [scrape_dynamic_eq] at h ⊢
    exact h
  · intro h
    unfold extract_with_selenium
    rw [h]
    exact ⟨rfl, rfl⟩

/-- C8 witness: a successful session quits the browser; a navigation
failure in the ETL-pipeline extractor leaks it. -/
theorem spec_C8_witness :
    (scrape_ncaa_dynamic_data envLoaded "u").2.quitCalled = true
    ∧ (extract_with_selenium envNavFail "u").2.created = true
      ∧ (extract_with_selenium envNavFail "u").2.quitCalled = false :=
  ⟨(spec_C8 envLoaded "u").1 rfl, (spec_C8 envNavFail "u").2 rfl⟩

/-- C9: demo-data regeneration preserves every non-demo row, removes only
rows flagged as demo data, and every row it creates carries
`is_demo_data = true` (both sports). -/
theorem spec_C9 (db : List BasketballStatsRow) (draws : List BBDraw)
    (dbF : List FootballStatsRow) (drawsF : List FBDraw) :
    (∀ r ∈ db, r.is_demo_data = false →
      r ∈ create_sample_basketball_data db draws)
    ∧ (∀ r ∈ db, r ∉ create_sample_basketball_data db draws →
      r.is_demo_data = true)
    ∧ (∀ r ∈ createBasketballLoop draws [] 0, r.is_demo_data = true)
    ∧ (∀ r ∈ dbF, r.is_demo_data = false →
      r ∈ create_sample_football_data dbF drawsF)
    ∧ (∀ r ∈ dbF, r ∉ create_sample_football_data dbF drawsF →
      r.is_demo_data = true)
    ∧ (∀ r ∈ createFootballLoop drawsF [] 0, r.is_demo_data = true) := by
  have hbb : ∀ r ∈ db, r.is_demo_data = false →
      r ∈ create_sample_basketball_data db draws := by
    intro r hr hdemo
    unfold create_sample_basketball_data
    exact List.mem_append_left _ (List.mem_filter.mpr ⟨hr, by simp [hdemo]⟩)
  have hfb : ∀ r ∈ dbF, r.is_demo_data = false →
      r ∈ create_sample_football_data dbF drawsF := by
    intro r hr hdemo
    unfold create_sample_football_data
    exact List.mem_append_left _ (List.mem_filter.mpr ⟨hr, by simp [hdemo]⟩)
  refine ⟨hbb, ?_, createBasketballLoop_demo draws [] 0,
          hfb, ?_, createFootballLoop_demo drawsF [] 0⟩
  · intro r hr hnotin
    cases hv : r.is_demo_data with
    | true => rfl
    | false => exact absurd (hbb r hr hv) hnotin
  · intro r hr hnotin
    cases hv : r.is_demo_data with
    | true => rfl
    | false => exact absurd (hfb r hr hv) hnotin

/-- C9 witness: a single scraped row survives a regeneration with no
draws, for both sports. -/
theorem spec_C9_witness :
    bbScrapedRow ∈ create_sample_basketball_data [bbScrapedRow] []
    ∧ fbScrapedRow ∈ create_sample_football_data [fbScrapedRow] [] :=
  ⟨(spec_C9 [bbScrapedRow] [] [fbScrapedRow] []).1 bbScrapedRow
     (List.mem_singleton.mpr rfl) rfl,
   (spec_C9 [bbScrapedRow] [] [fbScrapedRow] []).2.2.2.1 fbScrapedRow
     (List.mem_singleton.mpr rfl) rfl⟩

/-- C10: a sport whose lower-cased name is neither basketball nor
football yields the empty mapping as a normal (non-raising) result. -/
theorem spec_C10 (env : ScrapeEnv) (sport season : String)
    (h1 : strLower sport ≠ "basketball") (h2 : strLower sport ≠ "football") :
    scrape_multiple_categories env sport season = Except.ok [] := by
  unfold scrape_multiple_categories
  rw [if_neg h1, if_neg h2]

/-- C10 witness: the theorem at the sport name Hockey. -/
theorem spec_C10_witness :
    scrape_multiple_categories envAllFail "Hockey" "2023" = Except.ok [] :=
  spec_C10 envAllFail "Hockey" "2023" (by decide) (by decide)

end SportsChat
